import Mathlib

/-!
Shallow embedding of the resource-change tracking pipeline
(ThirdPartyAnalyticsController): Change Events, the coalescing work queue,
the watch registry, the resource-watcher event handlers, the worker loop and
the tracking-sink adapter, together with theorems settling the specification
claims against this embedding.

Conventions of the embedding:
  * Go strings are Lean `String`s; the struct field `namespace` is spelled
    `nspace` because `namespace` is a Lean keyword.
  * `newEvent` in the source returns a pointer (`*analyticsEvent`); Go
    interface equality on pointers is address identity, so queue items are
    modelled as an address paired with the pointee value (`EventRef`), and
    the equality the queue uses on items is made an explicit parameter.
  * The work queue (`workqueue.Type`) is vendored library code not present
    in the source tree; it is modelled from the spec (section 4.1).
  * A Go panic (nil-pointer dereference) is modelled as an explicit
    `panicked` outcome of a handler.
-/

/-- The event value produced for every observed mutation: resource kind
(`objectName`), action (`add`/`update`/`delete`), and namespace. -/
structure analyticsEvent where
  objectName : String
  action : String
  nspace : String
deriving DecidableEq, Repr

/-- A `*analyticsEvent` value as stored in the queue: `addr` models the
pointer, `val` the pointee. Go interface equality on two such items compares
the addresses, never the pointee fields. -/
structure EventRef where
  addr : Nat
  val : analyticsEvent
deriving DecidableEq, Repr

/-- An item of the untyped (interface-valued) work queue: either a pointer to
an analytics event, or some foreign value of another dynamic type. -/
inductive WorkItem where
  | event (r : EventRef)
  | foreign (id : Nat)
deriving DecidableEq, Repr

/-- Go interface equality on queue items: pointers compare by address,
foreign items by their own identity, items of different dynamic type are
unequal. -/
def goItemEq : WorkItem → WorkItem → Bool
  | WorkItem.event a, WorkItem.event b => a.addr == b.addr
  | WorkItem.foreign a, WorkItem.foreign b => a == b
  | _, _ => false

/-- Structural equality on queue items: event items compare by the three
event fields. This is the equality the spec ascribes to the queue ("two
events are the same pending item iff all three fields match exactly"); the
code would realise it had the items been `analyticsEvent` values rather than
pointers. -/
def valueItemEq : WorkItem → WorkItem → Bool
  | WorkItem.event a, WorkItem.event b => a.val == b.val
  | WorkItem.foreign a, WorkItem.foreign b => a == b
  | _, _ => false

/-- Modelled from the spec: the coalescing queue (`workqueue.Type`, vendored
and not in the source tree) holds queued items in FIFO order, a dirty set and
an in-flight (processing) set, plus the shutting-down flag. -/
structure WorkQueue (α : Type) where
  queue : List α
  dirty : List α
  processing : List α
  shuttingDown : Bool
deriving DecidableEq, Repr

/-- The empty, running queue (`workqueue.New()`). -/
def WorkQueue.new {α : Type} : WorkQueue α :=
  { queue := [], dirty := [], processing := [], shuttingDown := false }

/-- Modelled from the spec: `Add` inserts the item unless it is already
pending (dirty); an item that is in-flight is only marked dirty, to be
redelivered once after the current processing finishes; after shutdown no
new item can be added and later retrieved. Membership tests use the supplied
item equality `eq` — for the real queue, Go interface equality. -/
def WorkQueue.Add {α : Type} (eq : α → α → Bool) (q : WorkQueue α) (item : α) :
    WorkQueue α :=
  if q.shuttingDown then q
  else if q.dirty.any (fun x => eq item x) then q
  else
    let q1 : WorkQueue α := { q with dirty := q.dirty ++ [item] }
    if q1.processing.any (fun x => eq item x) then q1
    else { q1 with queue := q1.queue ++ [item] }

/-- Outcome of a `Get` call in the sequential model: an item, the quit
signal (queue drained and shutting down), or blocking (queue empty, still
running). -/
inductive GetResult (α : Type) where
  | item (a : α)
  | quit
  | blocked
deriving DecidableEq, Repr

/-- Modelled from the spec: `Get` hands out the head of the FIFO, moving it
from queued to in-flight and clearing its dirty mark; on a drained queue it
quits when shutting down and blocks otherwise. -/
def WorkQueue.Get {α : Type} (eq : α → α → Bool) (q : WorkQueue α) :
    GetResult α × WorkQueue α :=
  match q.queue with
  | [] => if q.shuttingDown then (GetResult.quit, q) else (GetResult.blocked, q)
  | a :: rest =>
      (GetResult.item a,
        { q with
            queue := rest,
            dirty := q.dirty.filter (fun x => !(eq a x)),
            processing := q.processing ++ [a] })

/-- Modelled from the spec: `Done` removes the item from the in-flight set;
if it was marked dirty while in-flight it is requeued for one redelivery. -/
def WorkQueue.Done {α : Type} (eq : α → α → Bool) (q : WorkQueue α) (item : α) :
    WorkQueue α :=
  let q1 : WorkQueue α :=
    { q with processing := q.processing.filter (fun x => !(eq item x)) }
  if q1.dirty.any (fun x => eq item x) then { q1 with queue := q1.queue ++ [item] }
  else q1

/-- Modelled from the spec: `ShutDown` flags the queue so that blocked and
future `Get` calls return the quit signal once the queued items are
drained. -/
def WorkQueue.ShutDown {α : Type} (q : WorkQueue α) : WorkQueue α :=
  { q with shuttingDown := true }

/-- Source `newEvent`: allocates a fresh `analyticsEvent` and returns the
pointer; `addr` is the fresh address the allocation yields. -/
def newEvent (addr : Nat) (objName action nspace : String) : EventRef :=
  { addr := addr, val := { objectName := objName, action := action, nspace := nspace } }

/-- Controller state relevant to enqueueing: the next fresh heap address and
the work queue of interface items. -/
structure ControllerState where
  nextAddr : Nat
  queue : WorkQueue WorkItem
deriving DecidableEq, Repr

/-- A freshly constructed controller (`workqueue.New()`, empty heap). -/
def ControllerState.new : ControllerState :=
  { nextAddr := 0, queue := WorkQueue.new }

/-- Source `enqueue`: logs, then `queue.Add(newEvent(objName, action,
namespace))`. Each call allocates a fresh pointer, and the queue compares
items by Go interface equality (`goItemEq`). -/
def ControllerState.enqueue (s : ControllerState)
    (objName action nspace : String) : ControllerState :=
  { nextAddr := s.nextAddr + 1,
    queue := s.queue.Add goItemEq (WorkItem.event (newEvent s.nextAddr objName action nspace)) }

/-- Repeated `Get` calls: the values yielded by up to `n` successful `Get`s
(stopping at quit or block), in order. Models a test harness draining the
queue with no `Done` calls in between. -/
def drainVals (eq : WorkItem → WorkItem → Bool) :
    Nat → WorkQueue WorkItem → List analyticsEvent
  | 0, _ => []
  | Nat.succ n, q =>
      match q.Get eq with
      | (GetResult.item (WorkItem.event r), q1) => r.val :: drainVals eq n q1
      | (GetResult.item (WorkItem.foreign _), q1) => drainVals eq n q1
      | _ => []

/-- What `meta.Accessor(obj)` returns for a notified object: the namespace
from its metadata, or an error when the object has no accessible metadata
(in which case the returned accessor is nil). -/
inductive MetaResult where
  | ok (nspace : String)
  | err (msg : String)
deriving DecidableEq, Repr

/-- What a handler invocation does: enqueue a Change Event, or panic (a Go
nil-pointer dereference, fatal to the process). -/
inductive HandlerOutcome where
  | enqueued (e : analyticsEvent)
  | panicked
deriving DecidableEq, Repr

/-- Result of one handler invocation: whether an accessor error was logged,
and the outcome that followed. -/
structure HandlerResult where
  loggedError : Bool
  outcome : HandlerOutcome
deriving DecidableEq, Repr

/-- The body of the `AddFunc` handler as written in the source: take the
accessor of the object; on error, log it — and then unconditionally call
`meta.GetNamespace()`, which on the nil accessor is a nil-pointer
dereference (panic). On success, enqueue `(nameVar, "add", namespace)`.
`nameVar` is the value, at invocation time, of the range variable `name`
the closure captured. -/
def addFunc (nameVar : String) (acc : MetaResult) : HandlerResult :=
  match acc with
  | MetaResult.ok nspace =>
      { loggedError := false,
        outcome := HandlerOutcome.enqueued
          { objectName := nameVar, action := "add", nspace := nspace } }
  | MetaResult.err _ =>
      { loggedError := true, outcome := HandlerOutcome.panicked }

/-- The body of the `UpdateFunc` handler: identical to `addFunc` but takes
the accessor of the new object and enqueues action `"update"`. -/
def updateFunc (nameVar : String) (accNew : MetaResult) : HandlerResult :=
  match accNew with
  | MetaResult.ok nspace =>
      { loggedError := false,
        outcome := HandlerOutcome.enqueued
          { objectName := nameVar, action := "update", nspace := nspace } }
  | MetaResult.err _ =>
      { loggedError := true, outcome := HandlerOutcome.panicked }

/-- The argument a delete notification hands to `DeleteFunc`: either the
object itself, or the `cache.DeletedFinalStateUnknown` wrapper around the
last known object (final state unknown). Each object is represented by what
`meta.Accessor` returns for it. -/
inductive DeleteArg where
  | plain (acc : MetaResult)
  | finalStateUnknown (inner : MetaResult)
deriving DecidableEq, Repr

/-- The accessor `DeleteFunc` ends up consulting: the inner object's when
the notification is the DeletedFinalStateUnknown wrapper. -/
def DeleteArg.accessor : DeleteArg → MetaResult
  | DeleteArg.plain acc => acc
  | DeleteArg.finalStateUnknown inner => inner

/-- The body of the `DeleteFunc` handler as written in the source: unwrap a
`DeletedFinalStateUnknown` wrapper to its inner object, take that object's
accessor (same log-then-dereference slip as `addFunc` on error), and enqueue
`(nameVar, "delete", namespace)`. -/
def deleteFunc (nameVar : String) (arg : DeleteArg) : HandlerResult :=
  match arg.accessor with
  | MetaResult.ok nspace =>
      { loggedError := false,
        outcome := HandlerOutcome.enqueued
          { objectName := nameVar, action := "delete", nspace := nspace } }
  | MetaResult.err _ =>
      { loggedError := true, outcome := HandlerOutcome.panicked }

/-- The value of the shared range variable `name` once the construction loop
has finished: the key of the last iteration, for the (unspecified) map
iteration order `order`. All handler closures capture that one variable by
reference and are only invoked after `NewThirdPartyAnalyticsController`
returns, so every invocation reads this value. -/
def finalLoopName (order : List String) : String :=
  order.getLastD ""

/-- The `AddFunc` handler installed for the registration keyed `k`: the
closure created during the `k` iteration of the range loop. It does not hold
`k` itself — it reads the shared loop variable at invocation time, which by
then holds `finalLoopName order`, whatever registration it was created
for. -/
def installedAddFunc (order : List String) (_k : String) (acc : MetaResult) :
    HandlerResult :=
  addFunc (finalLoopName order) acc

/-- One watch registration from the literal `watches` table: kind name, the
object-type tag, the resync period passed to `framework.NewInformer`, and
whether the list and watch operations cover all namespaces
(`api.NamespaceAll`; the cluster-scoped `Namespaces()` calls cover all
namespaces inherently). -/
structure InformerConfig where
  kindName : String
  objType : String
  resyncPeriod : Nat
  listAllNamespaces : Bool
  watchAllNamespaces : Bool
deriving DecidableEq, Repr

/-- The literal `watches` table of `NewThirdPartyAnalyticsController`, in
source order. The `namespace` entry's object type is `api.Service` in the
source (as written). Every informer is constructed with resync period 0. -/
def watches : List InformerConfig :=
  [ { kindName := "pod", objType := "Pod", resyncPeriod := 0,
      listAllNamespaces := true, watchAllNamespaces := true },
    { kindName := "replication_controller", objType := "ReplicationController",
      resyncPeriod := 0, listAllNamespaces := true, watchAllNamespaces := true },
    { kindName := "pvclaim", objType := "PersistentVolumeClaim", resyncPeriod := 0,
      listAllNamespaces := true, watchAllNamespaces := true },
    { kindName := "secret", objType := "Secret", resyncPeriod := 0,
      listAllNamespaces := true, watchAllNamespaces := true },
    { kindName := "service", objType := "Service", resyncPeriod := 0,
      listAllNamespaces := true, watchAllNamespaces := true },
    { kindName := "namespace", objType := "Service", resyncPeriod := 0,
      listAllNamespaces := true, watchAllNamespaces := true },
    { kindName := "deployment", objType := "DeploymentConfig", resyncPeriod := 0,
      listAllNamespaces := true, watchAllNamespaces := true },
    { kindName := "route", objType := "Route", resyncPeriod := 0,
      listAllNamespaces := true, watchAllNamespaces := true },
    { kindName := "build", objType := "Build", resyncPeriod := 0,
      listAllNamespaces := true, watchAllNamespaces := true },
    { kindName := "template", objType := "Template", resyncPeriod := 0,
      listAllNamespaces := true, watchAllNamespaces := true } ]

/-- The fixed parameter map `track` builds for an event, in source order:
host, event (lowercased kind and action joined by an underscore), and the
namespace under both custom-value keys. -/
def trackParams (objName action nspace : String) : List (String × String) :=
  [ ("host", "dev.openshift.redhat.com"),
    ("event", objName.toLower ++ "_" ++ action.toLower),
    ("cv_email", nspace),
    ("cv_project_namespace", nspace) ]

/-- The HTTP method `track` passes to `TrackEvent`. -/
def trackMethod : String := "GET"

/-- The endpoint format string `track` passes to `TrackEvent`. -/
def trackEndpoint : String := "http://www.woopra.com/track/ce?%s"

deriving instance DecidableEq for Except

/-- The response an HTTP GET produced when the transport succeeded: the
status code and the result of reading the body (which may itself fail). -/
structure HttpResponse where
  status : Nat
  bodyRead : Except String String
deriving DecidableEq, Repr

/-- Whether a status code is a success (2xx) response. This definition
follows the spec's words ("non-success response"), to compare with what
`TrackEvent` actually inspects. -/
def isSuccessStatus (s : Nat) : Bool :=
  200 ≤ s && s < 300

/-- Source `realAnalyticsTracker.TrackEvent`: URL-encode the parameters; for
method GET, perform the HTTP GET (`transport` is its result) and fail if the
transport failed; then read the body and fail if the read failed. The
response status code is never inspected, and for any other method nothing is
done and nil is returned. `params` and `endpoint` only shape the request
URL, which the `transport` argument abstracts. -/
def TrackEvent (_params : List (String × String)) (method : String)
    (_endpoint : String) (transport : Except String HttpResponse) :
    Except String Unit :=
  if method = "GET" then
    match transport with
    | Except.error e => Except.error e
    | Except.ok resp =>
        match resp.bodyRead with
        | Except.error e => Except.error ("error tracking event: " ++ e)
        | Except.ok _ => Except.ok ()
  else Except.ok ()

/-- Source `track`: builds the parameter map and calls
`TrackEvent(params, "GET", endpoint)`, wrapping any error. -/
def track (objName action nspace : String)
    (transport : Except String HttpResponse) : Except String Unit :=
  match TrackEvent (trackParams objName action nspace) trackMethod trackEndpoint
      transport with
  | Except.error e => Except.error ("Error sending track event: " ++ e)
  | Except.ok _ => Except.ok ()

/-- How one execution of the anonymous closure in `worker` ended: an item
was processed (and `Done` ran), the quit branch returned from the closure,
or `Get` blocked awaiting an item. -/
inductive BodyOutcome where
  | processed
  | quitReturn
  | blockedWait
deriving DecidableEq, Repr

/-- Observable result of one execution of the closure in `worker`: the queue
afterwards, how the execution ended, and counts of sink calls, `Done` calls
and logged sink errors for the dequeued item. -/
structure BodyResult where
  q : WorkQueue WorkItem
  outcome : BodyOutcome
  sinkCalls : Nat
  doneCalls : Nat
  loggedSinkError : Bool
deriving DecidableEq, Repr

/-- One execution of the closure in the body of `worker`: `Get`; on quit,
return from the closure; otherwise defer `Done(obj)`, and if the item's
dynamic type is `*analyticsEvent`, call `track` (the abstract `sink`) and
log any error it returns. A foreign item gets no sink call. `Done` runs
exactly once, via the deferred call, on every non-quit path. -/
def workerBody (sink : analyticsEvent → Except String Unit)
    (q : WorkQueue WorkItem) : BodyResult :=
  match q.Get goItemEq with
  | (GetResult.quit, q1) =>
      { q := q1, outcome := BodyOutcome.quitReturn, sinkCalls := 0,
        doneCalls := 0, loggedSinkError := false }
  | (GetResult.blocked, q1) =>
      { q := q1, outcome := BodyOutcome.blockedWait, sinkCalls := 0,
        doneCalls := 0, loggedSinkError := false }
  | (GetResult.item it, q1) =>
      match it with
      | WorkItem.event r =>
          match sink r.val with
          | Except.ok _ =>
              { q := q1.Done goItemEq (WorkItem.event r),
                outcome := BodyOutcome.processed, sinkCalls := 1,
                doneCalls := 1, loggedSinkError := false }
          | Except.error _ =>
              { q := q1.Done goItemEq (WorkItem.event r),
                outcome := BodyOutcome.processed, sinkCalls := 1,
                doneCalls := 1, loggedSinkError := true }
      | WorkItem.foreign n =>
          { q := q1.Done goItemEq (WorkItem.foreign n),
            outcome := BodyOutcome.processed, sinkCalls := 0,
            doneCalls := 1, loggedSinkError := false }

/-- `n` iterations of the unconditional `for` loop in `worker`. The quit
branch's `return` exits only the inner closure, so the loop body runs again
— there is no path that leaves the loop. Returns the queue, the number of
`Get` calls performed, and whether the worker function returned (it never
does; a blocked `Get` merely suspends the current call). -/
def workerSteps (sink : analyticsEvent → Except String Unit) :
    Nat → WorkQueue WorkItem → WorkQueue WorkItem × Nat × Bool
  | 0, q => (q, 0, false)
  | Nat.succ n, q =>
      let b := workerBody sink q
      match b.outcome with
      | BodyOutcome.blockedWait => (b.q, 1, false)
      | _ =>
          let r := workerSteps sink n b.q
          (r.1, r.2.1 + 1, r.2.2)

/-- Helper: `Done` always leaves the in-flight set free of the completed
item, whether or not a dirty redelivery is queued. -/
theorem WorkQueue.Done_processing {α : Type} (eq : α → α → Bool)
    (q : WorkQueue α) (item : α) :
    (q.Done eq item).processing = q.processing.filter (fun x => !(eq item x)) := by
  unfold WorkQueue.Done
  dsimp only
  split <;> rfl

/-- Under the structural item equality the spec ascribes to the queue, three
`Add` calls with structurally equal events (at distinct addresses) leave a
single queued instance — the behaviour the claimed coalescing property
needs. -/
theorem structural_add_coalesces :
    ((((WorkQueue.new.Add valueItemEq (WorkItem.event (newEvent 0 "pod" "add" "ns1"))).Add
        valueItemEq (WorkItem.event (newEvent 1 "pod" "add" "ns1"))).Add
        valueItemEq (WorkItem.event (newEvent 2 "pod" "add" "ns1"))).queue).length = 1 := by
  rfl

/-- C1: the claim says N `Add` calls with a structurally equal event, with no
worker consuming, make `Get` yield that value at most twice. Evaluating the
code at the failing input: three `enqueue` calls for the same (pod, add,
ns1) triple on a fresh controller each allocate a fresh `*analyticsEvent`,
the queue deduplicates by Go interface (pointer) equality, and three `Get`
calls each yield the value — three times, not at most twice. -/
theorem c1_structurally_equal_adds_not_coalesced :
    (drainVals goItemEq 3
        (((ControllerState.new.enqueue "pod" "add" "ns1").enqueue
            "pod" "add" "ns1").enqueue "pod" "add" "ns1").queue).count
      { objectName := "pod", action := "add", nspace := "ns1" } = 3 := by
  rfl

/-- C2: the claim says each watcher enqueues events carrying its own
registered kind. Evaluating the code: with the map iterated in the table's
source order (last key "template"), the `AddFunc` installed for the "pod"
registration reads the shared range variable after the loop finished and
enqueues kind "template", not "pod". -/
theorem c2_handler_enqueues_last_iterated_kind :
    installedAddFunc (watches.map (fun w => w.kindName)) "pod" (MetaResult.ok "ns1") =
      { loggedError := false,
        outcome := HandlerOutcome.enqueued
          { objectName := "template", action := "add", nspace := "ns1" } } ∧
    ("template" : String) ≠ "pod" := by
  constructor
  · rfl
  · decide

/-- C3: the claim says a failed metadata accessor is logged and the
notification dropped, never fatally. Evaluating the code: on an accessor
error the handler logs it, then still dereferences the nil accessor for the
namespace — a panic, fatal to the process, not a dropped notification. -/
theorem c3_accessor_failure_logs_then_panics :
    addFunc "pod" (MetaResult.err "object has no meta") =
      { loggedError := true, outcome := HandlerOutcome.panicked } := by
  rfl

/-- C4: the claim says a worker that observes the quit signal from `Get`
exits its dequeue loop. After `ShutDown` on the drained queue every `Get`
does return quit, but the quit branch's return leaves only the inner
closure: n iterations of the worker loop perform n further `Get` calls and
the worker function never terminates. -/
theorem c4_worker_never_exits_after_shutdown
    (sink : analyticsEvent → Except String Unit) (n : Nat) :
    ((WorkQueue.new.ShutDown (α := WorkItem)).Get goItemEq).1 = GetResult.quit ∧
    workerSteps sink n (WorkQueue.new.ShutDown) =
      (WorkQueue.new.ShutDown, n, false) := by
  constructor
  · rfl
  · induction n with
    | zero => rfl
    | succ m ih =>
        have hred : workerSteps sink (m + 1) (WorkQueue.new.ShutDown) =
            ((workerSteps sink m (WorkQueue.new.ShutDown)).1,
             (workerSteps sink m (WorkQueue.new.ShutDown)).2.1 + 1,
             (workerSteps sink m (WorkQueue.new.ShutDown)).2.2) := rfl
        rw [hred, ih]

/-- C4 witness: at the concrete input sink that always succeeds and n = 4,
the shut-down queue signals quit and four loop iterations perform four `Get`
calls without the worker returning. -/
theorem c4_worker_never_exits_after_shutdown_witness :
    ((WorkQueue.new.ShutDown (α := WorkItem)).Get goItemEq).1 = GetResult.quit ∧
    workerSteps (fun _ => Except.ok ()) 4 (WorkQueue.new.ShutDown) =
      (WorkQueue.new.ShutDown, 4, false) :=
  c4_worker_never_exits_after_shutdown (fun _ => Except.ok ()) 4

/-- C5 counterexample: the claim says a non-success response is reported as
a failure. At the concrete input of a transport-successful GET that returned
status 500 with a readable empty body, `TrackEvent` returns nil (success),
although 500 is not a success status. -/
theorem c5_counterexample_nonsuccess_reported_ok :
    TrackEvent (trackParams "pod" "add" "ns1") "GET" trackEndpoint
        (Except.ok { status := 500, bodyRead := Except.ok "" }) = Except.ok () ∧
    isSuccessStatus 500 = false := by
  constructor
  · rfl
  · rfl

/-- C5 amended: for a GET call the adapter reports success exactly when the
transport succeeded and the response body could be read; the response status
code is never inspected, so a non-success response with a readable body is
reported as success. -/
theorem c5_failure_iff_transport_or_body_read_fails
    (params : List (String × String)) (endpoint : String)
    (t : Except String HttpResponse) :
    TrackEvent params "GET" endpoint t = Except.ok () ↔
      ∃ r : HttpResponse, t = Except.ok r ∧ ∃ b : String, r.bodyRead = Except.ok b := by
  unfold TrackEvent
  rw [if_pos rfl]
  cases t with
  | error e => simp
  | ok r =>
      cases hb : r.bodyRead with
      | error e => simp [hb]
      | ok b => simp [hb]

/-- C6: for a dequeue that hands the worker an analytics event whose sink
delivery fails, the worker logs the failure, calls `Done` on the item
exactly once (via the deferred call), makes exactly one sink call (no
retry), does not crash, and the closure finishes as `processed`, so the loop
proceeds to the next item. -/
theorem c6_sink_failure_logged_done_once_no_retry
    (sink : analyticsEvent → Except String Unit)
    (q q' : WorkQueue WorkItem) (r : EventRef) (msg : String)
    (hget : q.Get goItemEq = (GetResult.item (WorkItem.event r), q'))
    (hsink : sink r.val = Except.error msg) :
    workerBody sink q =
      { q := q'.Done goItemEq (WorkItem.event r),
        outcome := BodyOutcome.processed, sinkCalls := 1,
        doneCalls := 1, loggedSinkError := true } := by
  unfold workerBody
  rw [hget]
  dsimp only
  rw [hsink]

/-- C6 witness: at the concrete one-event queue with an always-failing sink,
the iteration makes one sink call, logs, calls `Done` once, and the queue
ends empty. -/
theorem c6_sink_failure_witness :
    workerBody (fun _ => Except.error "transport")
        { queue := [WorkItem.event (newEvent 0 "pod" "add" "ns1")],
          dirty := [WorkItem.event (newEvent 0 "pod" "add" "ns1")],
          processing := [], shuttingDown := false } =
      { q := { queue := [], dirty := [], processing := [], shuttingDown := false },
        outcome := BodyOutcome.processed, sinkCalls := 1, doneCalls := 1,
        loggedSinkError := true } :=
  c6_sink_failure_logged_done_once_no_retry (fun _ => Except.error "transport")
    { queue := [WorkItem.event (newEvent 0 "pod" "add" "ns1")],
      dirty := [WorkItem.event (newEvent 0 "pod" "add" "ns1")],
      processing := [], shuttingDown := false }
    { queue := [], dirty := [],
      processing := [WorkItem.event (newEvent 0 "pod" "add" "ns1")],
      shuttingDown := false }
    (newEvent 0 "pod" "add" "ns1") "transport" rfl rfl

/-- C7: a delete notification whose (unwrapped) object's accessor succeeds
makes `DeleteFunc` enqueue an event with action "delete" and the namespace
taken from that accessor; the `DeletedFinalStateUnknown` wrapper is first
unwrapped to the inner object, whose accessor is the one consulted. -/
theorem c7_delete_enqueues_delete_action_unwrapping
    (nameVar ns : String) (arg : DeleteArg)
    (h : arg.accessor = MetaResult.ok ns) :
    deleteFunc nameVar arg =
      { loggedError := false,
        outcome := HandlerOutcome.enqueued
          { objectName := nameVar, action := "delete", nspace := ns } } ∧
    (∀ inner : MetaResult, (DeleteArg.finalStateUnknown inner).accessor = inner) := by
  refine ⟨?_, fun _ => rfl⟩
  unfold deleteFunc
  rw [h]

/-- C7 witness: a wrapped (final state unknown) delete whose inner object
lives in namespace ns1 enqueues (pod captured-kind aside) an event with
action "delete" and namespace "ns1". -/
theorem c7_delete_witness :
    deleteFunc "pod" (DeleteArg.finalStateUnknown (MetaResult.ok "ns1")) =
      { loggedError := false,
        outcome := HandlerOutcome.enqueued
          { objectName := "pod", action := "delete", nspace := "ns1" } } ∧
    (∀ inner : MetaResult, (DeleteArg.finalStateUnknown inner).accessor = inner) :=
  c7_delete_enqueues_delete_action_unwrapping "pod" "ns1"
    (DeleteArg.finalStateUnknown (MetaResult.ok "ns1")) rfl

/-- C8: the registry built at construction holds exactly the ten kinds of
the literal table, every informer is registered with resync period 0, and
every list and watch operation covers all namespaces. The table is a
constant: nothing adds or removes a registration after construction. -/
theorem c8_registry_ten_kinds_resync_zero_all_namespaces :
    watches.map (fun w => w.kindName) =
      ["pod", "replication_controller", "pvclaim", "secret", "service",
       "namespace", "deployment", "route", "build", "template"] ∧
    watches.all
      (fun w => w.resyncPeriod == 0 && w.listAllNamespaces && w.watchAllNamespaces) =
      true := by
  constructor
  · rfl
  · rfl

/-- C9: for every tracked event, `track` sends exactly the four keys host,
event, cv_email and cv_project_namespace; event is the lowercased kind and
action joined by an underscore, the namespace is the value of both cv keys,
the host value is fixed, the method is GET and the endpoint is the fixed
Woopra tracking URL. -/
theorem c9_track_builds_fixed_woopra_parameters (objName action nspace : String) :
    trackParams objName action nspace =
      [("host", "dev.openshift.redhat.com"),
       ("event", objName.toLower ++ "_" ++ action.toLower),
       ("cv_email", nspace),
       ("cv_project_namespace", nspace)] ∧
    trackMethod = "GET" ∧
    trackEndpoint = "http://www.woopra.com/track/ce?%s" :=
  ⟨rfl, rfl, rfl⟩

/-- C10: a dequeued item whose dynamic type is not `*analyticsEvent` gets no
sink call, is still marked `Done` exactly once, the iteration ends as
`processed` (no crash, the loop continues), and afterwards the item is no
longer in the in-flight set. -/
theorem c10_foreign_item_no_sink_call_done_once
    (sink : analyticsEvent → Except String Unit)
    (q q' : WorkQueue WorkItem) (n : Nat)
    (hget : q.Get goItemEq = (GetResult.item (WorkItem.foreign n), q')) :
    workerBody sink q =
      { q := q'.Done goItemEq (WorkItem.foreign n),
        outcome := BodyOutcome.processed, sinkCalls := 0,
        doneCalls := 1, loggedSinkError := false } ∧
    ∀ x ∈ (workerBody sink q).q.processing, goItemEq (WorkItem.foreign n) x = false := by
  have h1 : workerBody sink q =
      { q := q'.Done goItemEq (WorkItem.foreign n),
        outcome := BodyOutcome.processed, sinkCalls := 0,
        doneCalls := 1, loggedSinkError := false } := by
    unfold workerBody
    rw [hget]
  refine ⟨h1, ?_⟩
  rw [h1]
  dsimp only
  rw [WorkQueue.Done_processing]
  intro x hx
  have hx2 := List.mem_filter.mp hx
  simpa using hx2.2

/-- C10 witness: at the concrete queue holding one foreign item, the
iteration makes no sink call, marks the item done once, and leaves the
in-flight set empty. -/
theorem c10_foreign_item_witness :
    workerBody (fun _ => Except.ok ())
        { queue := [WorkItem.foreign 7], dirty := [WorkItem.foreign 7],
          processing := [], shuttingDown := false } =
      { q := { queue := [], dirty := [], processing := [], shuttingDown := false },
        outcome := BodyOutcome.processed, sinkCalls := 0, doneCalls := 1,
        loggedSinkError := false } ∧
    ∀ x ∈ (workerBody (fun _ => Except.ok ())
        { queue := [WorkItem.foreign 7], dirty := [WorkItem.foreign 7],
          processing := [], shuttingDown := false }).q.processing,
      goItemEq (WorkItem.foreign 7) x = false :=
  c10_foreign_item_no_sink_call_done_once (fun _ => Except.ok ())
    { queue := [WorkItem.foreign 7], dirty := [WorkItem.foreign 7],
      processing := [], shuttingDown := false }
    { queue := [], dirty := [], processing := [WorkItem.foreign 7],
      shuttingDown := false }
    7 rfl
